import Mathlib

/-
  Verification of the ChainAuditAI front-end scripts.

  Shallow embedding of the record-aggregation, feed-selection, time-formatting,
  poll-cycle and scanner logic of:
    - src/frontend/dashboard.js     (the `dash*` definitions)
    - src/unnamed/part_000          (the `stats*` definitions; a near-duplicate
                                     dashboard variant that fetches `/stats/`)
    - src/frontend/scanner.js       (the scanner definitions)
  DOM rendering is abstracted to the data each DOM node displays; network I/O is
  abstracted to an explicit fetch-outcome value consumed by the cycle functions.
-/

/-- A transaction record as received from the backend (`data.records` entries).
`created_at` is an epoch-millisecond timestamp, absent when the backend omits it. -/
structure Record where
  id : Nat
  transaction_type : String
  fraud_score : Int
  created_at : Option Int
  tx_hash : Option String
deriving Repr, DecidableEq

/-- Safe/fraud counters of one transaction category (`{ safe: 0, fraud: 0 }`). -/
structure TypeCounts where
  safe : Nat
  fraud : Nat
deriving Repr, DecidableEq

/-- The `typeGroups` / `stats` object of `updateDashboard`: one counter pair per
fixed category. -/
structure TypeGroups where
  vehicle : TypeCounts
  bank : TypeCounts
  ecommerce : TypeCounts
  ethereum : TypeCounts
deriving Repr, DecidableEq

/-- The initial all-zero `typeGroups` / `stats` object literal. -/
def initGroups : TypeGroups := ⟨⟨0, 0⟩, ⟨0, 0⟩, ⟨0, 0⟩, ⟨0, 0⟩⟩

/-- One `safe++` or `fraud++` step on a category's counters. -/
def bump (c : TypeCounts) (isFraud : Bool) : TypeCounts :=
  if isFraud then { c with fraud := c.fraud + 1 } else { c with safe := c.safe + 1 }

/-- The body of the `records.forEach` loop of `updateDashboard`: look up the
record's `transaction_type` among the four fixed keys (`if (typeGroups[type])`)
and bump that category's fraud or safe counter; unrecognized types fall through.
The fraud test differs between the two dashboard variants and is a parameter. -/
def categorize (isFraud : Record → Bool) (g : TypeGroups) (r : Record) : TypeGroups :=
  if r.transaction_type = "vehicle" then { g with vehicle := bump g.vehicle (isFraud r) }
  else if r.transaction_type = "bank" then { g with bank := bump g.bank (isFraud r) }
  else if r.transaction_type = "ecommerce" then { g with ecommerce := bump g.ecommerce (isFraud r) }
  else if r.transaction_type = "ethereum" then { g with ethereum := bump g.ethereum (isFraud r) }
  else g

/-- src/frontend/dashboard.js line 96: `record.fraud_score >= 50`. -/
def dashIsFraud (r : Record) : Bool := decide (50 ≤ r.fraud_score)

/-- src/unnamed/part_000 line 99: `r.fraud_score > 50`. -/
def statsIsFraud (r : Record) : Bool := decide (50 < r.fraud_score)

/-- Category series computed by `updateDashboard` in src/frontend/dashboard.js
(threshold `>= 50`). -/
def dashCounts (records : List Record) : TypeGroups :=
  records.foldl (categorize dashIsFraud) initGroups

/-- Category series computed by `updateDashboard` in src/unnamed/part_000
(threshold `> 50`). -/
def statsCounts (records : List Record) : TypeGroups :=
  records.foldl (categorize statsIsFraud) initGroups

/-- Predicate: record belongs to category `t` and is counted safe under `isFraud`. -/
def catSafeP (isFraud : Record → Bool) (t : String) (r : Record) : Bool :=
  r.transaction_type == t && !(isFraud r)

/-- Predicate: record belongs to category `t` and is counted fraud under `isFraud`. -/
def catFraudP (isFraud : Record → Bool) (t : String) (r : Record) : Bool :=
  r.transaction_type == t && isFraud r

/-- Record has one of the four recognized `transaction_type` values. -/
def recognizedType (r : Record) : Bool :=
  r.transaction_type == "vehicle" || r.transaction_type == "bank" ||
  r.transaction_type == "ecommerce" || r.transaction_type == "ethereum"

/-- Counter pair of the named category (the `typeGroups[type]` lookup). -/
def TypeGroups.cat (g : TypeGroups) : String → TypeCounts
  | "vehicle" => g.vehicle
  | "bank" => g.bank
  | "ecommerce" => g.ecommerce
  | "ethereum" => g.ethereum
  | _ => ⟨0, 0⟩

/-- Sum of all eight category counters. -/
def TypeGroups.total (g : TypeGroups) : Nat :=
  g.vehicle.safe + g.vehicle.fraud + g.bank.safe + g.bank.fraud +
  g.ecommerce.safe + g.ecommerce.fraud + g.ethereum.safe + g.ethereum.fraud

/-- Feed selection of `updateLiveFeed` in both dashboard variants:
`records.slice(0, 10)` — the first ten records in received order. -/
def recentRecords (records : List Record) : List Record := records.take 10

/-- Timestamp order with a missing timestamp treated as oldest. -/
def tsLE : Option Int → Option Int → Bool
  | none, _ => true
  | some _, none => false
  | some a, some b => decide (a ≤ b)

/-- Modelled from the spec: the canonical feed-ordering policy of §4.2 —
"sort by `created_at` descending (most recent first), treat missing timestamps
as oldest". No sorting code exists under src/; this predicate states when a
list is ordered as that policy requires, for comparison with `recentRecords`. -/
def sortedByCreatedAtDesc (l : List Record) : Prop :=
  List.Pairwise (fun a b => tsLE b.created_at a.created_at = true) l

/-- Modelled from the spec: §4.1(b) histogram clamp — "clamp each score to
[0,100]"; no histogram implementation exists under src/. -/
def clampScore (s : Int) : Int := min 100 (max 0 s)

/-- Modelled from the spec: §4.1(b) bucket map — "map to bucket index
`min(floor(score/10), 9)`"; no histogram implementation exists under src/. -/
def bucketIndex (s : Int) : Nat := min ((clampScore s).toNat / 10) 9

/-- Increment of one histogram bucket ("increment that bucket"). -/
def incBucket (h : List Nat) (i : Nat) : List Nat := h.set i (h.getD i 0 + 1)

/-- Modelled from the spec: §4.1(b) score histogram — a 10-bucket count vector
built by bucketing every record's `fraud_score`; no histogram implementation
exists under src/. -/
def scoreHistogram (records : List Record) : List Nat :=
  records.foldl (fun h r => incBucket h (bucketIndex r.fraud_score)) (List.replicate 10 0)

/-- `getTimeAgo` of src/frontend/dashboard.js lines 184-203: coarse relative-age
label from an epoch-ms timestamp and the current epoch-ms time; a missing
timestamp short-circuits to `'Unknown'`. `Int.fdiv` is `Math.floor` division. -/
def getTimeAgo (now : Int) (timestamp : Option Int) : String :=
  match timestamp with
  | none => "Unknown"
  | some t =>
    let diffMs : Int := now - t
    let diffMins : Int := diffMs.fdiv 60000
    if diffMins < 1 then "Just now"
    else if diffMins = 1 then "1 min ago"
    else if diffMins < 60 then toString diffMins ++ " mins ago"
    else
      let diffHours : Int := diffMins.fdiv 60
      if diffHours = 1 then "1 hour ago"
      else if diffHours < 24 then toString diffHours ++ " hours ago"
      else
        let diffDays : Int := diffHours.fdiv 24
        if diffDays = 1 then "1 day ago"
        else toString diffDays ++ " days ago"

/-- Parsed response body of the dashboard endpoints; `records` is absent when
the JSON object lacks the field (`data.records || []`). -/
structure DashData where
  records : Option (List Record)
deriving Repr, DecidableEq

/-- Outcome of one `fetch` of the dashboard endpoint, as observed by the
front-end: either the promise rejected (network error, carrying the error
message), or a response arrived with its `ok` flag, status code, content type,
raw text, and JSON-parse result (`.error` when `response.json()` rejects). -/
inductive FetchOutcome where
  | networkError (msg : String)
  | response (ok : Bool) (status : Nat) (contentType : Option String) (text : String)
      (body : Except String DashData)

/-- Rendered state of the dashboard.js page: chart labels and datasets, records
shown in the live feed, and the feed heading text. -/
structure DashState where
  labels : List String
  safeData : List Nat
  fraudData : List Nat
  feedItems : List Record
  feedHeading : String
deriving Repr, DecidableEq

/-- The `catch` block of `fetchDashboardData` in src/frontend/dashboard.js:
write the error message into the `feedHeading` element, touching nothing else. -/
def dashError (s : DashState) (msg : String) : DashState :=
  { s with feedHeading := "Live Block Feed - Error: " ++ msg }

/-- `updateDashboard` + `updateLiveFeed` of src/frontend/dashboard.js: recompute
the category series, set the fixed labels, and show the first ten records. -/
def dashUpdateDashboard (s : DashState) (data : DashData) : DashState :=
  let records := data.records.getD []
  let g := dashCounts records
  { s with
    labels := ["Vehicle", "Bank", "E-Commerce", "Ethereum"],
    safeData := [g.vehicle.safe, g.bank.safe, g.ecommerce.safe, g.ethereum.safe],
    fraudData := [g.vehicle.fraud, g.bank.fraud, g.ecommerce.fraud, g.ethereum.fraud],
    feedItems := recentRecords records }

/-- One fetch-and-update cycle of `fetchDashboardData` in
src/frontend/dashboard.js: non-ok status throws `HTTP error! status: N`, a JSON
parse failure throws its own message, and every throw lands in the catch. -/
def dashFetchCycle (s : DashState) (o : FetchOutcome) : DashState :=
  match o with
  | .networkError msg => dashError s msg
  | .response ok status _ _ body =>
    if !ok then dashError s ("HTTP error! status: " ++ toString status)
    else
      match body with
      | .error msg => dashError s msg
      | .ok data => dashUpdateDashboard s data

/-- Substring test on character lists (JS `String.prototype.includes`). -/
def hasSubstr (pat : List Char) : List Char → Bool
  | [] => pat.isEmpty
  | c :: t => pat.isPrefixOf (c :: t) || hasSubstr pat t

/-- src/unnamed/part_000 lines 66-67: content-type header present and containing
`application/json`. -/
def jsonContentType : Option String → Bool
  | none => false
  | some ct => hasSubstr "application/json".toList ct.toList

/-- Rendered state of the part_000 dashboard page: chart datasets, the two
header counters, and the live-feed container, which shows either a record list
or an error banner (`feed.innerHTML` is overwritten by the catch block). -/
structure StatsState where
  safeData : List Nat
  fraudData : List Nat
  totalScans : Nat
  fraudDetected : Nat
  feed : List Record ⊕ String
deriving Repr, DecidableEq

/-- The `catch` block of `fetchDashboardData` in src/unnamed/part_000: replace
the live-feed container's content with a connection-error banner. -/
def statsError (s : StatsState) (msg : String) : StatsState :=
  { s with feed := Sum.inr ("Connection Error: " ++ msg ++ ". Is Backend running?") }

/-- `updateDashboard` + `updateLiveFeed` of src/unnamed/part_000: recompute the
category series, the two header counters, and show the first ten records. -/
def statsUpdateDashboard (s : StatsState) (data : DashData) : StatsState :=
  let records := data.records.getD []
  let g := statsCounts records
  { s with
    safeData := [g.vehicle.safe, g.bank.safe, g.ecommerce.safe, g.ethereum.safe],
    fraudData := [g.vehicle.fraud, g.bank.fraud, g.ecommerce.fraud, g.ethereum.fraud],
    totalScans := records.length,
    fraudDetected := g.vehicle.fraud + g.bank.fraud + g.ecommerce.fraud + g.ethereum.fraud,
    feed := Sum.inl (recentRecords records) }

/-- One fetch-and-update cycle of `fetchDashboardData` in src/unnamed/part_000:
the content type is checked before the `ok` flag; each failure throws a message
that the catch block writes into the feed container. -/
def statsFetchCycle (s : StatsState) (o : FetchOutcome) : StatsState :=
  match o with
  | .networkError msg => statsError s msg
  | .response ok status ct text body =>
    if !(jsonContentType ct) then
      statsError s ("Server returned non-JSON response: " ++ text.take 50 ++ "...")
    else if !ok then statsError s ("HTTP Error: " ++ toString status)
    else
      match body with
      | .error msg => statsError s msg
      | .ok data => statsUpdateDashboard s data

/-- Response body of `POST /analyze` as used by `renderResults` and
`commitToLedger` in src/frontend/scanner.js. -/
structure AnalyzeResponse where
  risk_level : String
  score : Option String
  message : Option String
  proof_hash : Option String
  transaction_id : Option String
deriving Repr, DecidableEq

/-- JS `x || dflt` on an optional string: the default replaces both a missing
and an empty (falsy) value. -/
def jsOrElse (v : Option String) (dflt : String) : String :=
  match v with
  | none => dflt
  | some s => if s == "" then dflt else s

/-- Rendered decision view produced by `renderResults`: risk styling class,
badge text, score/message/hash texts, and the commit button being re-enabled. -/
structure ResultView where
  highRisk : Bool
  riskBadgeText : String
  scoreValueText : String
  scoreTextText : String
  proofHashText : String
  commitDisabled : Bool
deriving Repr, DecidableEq

/-- `renderResults` of src/frontend/scanner.js lines 119-161: the decision view
is fraud-styled when `data.risk_level === "HIGH" || state.currentSignal === "fraud"`. -/
def renderResults (currentSignal : Option String) (data : AnalyzeResponse) : ResultView :=
  if data.risk_level == "HIGH" || currentSignal == some "fraud" then
    { highRisk := true, riskBadgeText := "FRAUD DETECTED",
      scoreValueText := jsOrElse data.score "--",
      scoreTextText := jsOrElse data.message "Analysis complete.",
      proofHashText := jsOrElse data.proof_hash "No hash returned",
      commitDisabled := false }
  else
    { highRisk := false, riskBadgeText := "LEGITIMATE",
      scoreValueText := jsOrElse data.score "--",
      scoreTextText := jsOrElse data.message "Analysis complete.",
      proofHashText := jsOrElse data.proof_hash "No hash returned",
      commitDisabled := false }

/-- The JSON payload `runAnalysis` posts to `/analyze`. -/
structure Payload where
  transaction_type : String
  model_used : String
  forced_signal : String
  fraud_label : String
  timestamp : String
deriving Repr, DecidableEq

/-- The scanner's global `state` object. -/
structure ScannerState where
  currentTransactionType : String
  currentModel : String
  currentSignal : Option String
  lastResult : Option AnalyzeResponse
deriving Repr, DecidableEq

/-- What `runAnalysis` does before any response arrives: either bail out with a
validation alert or issue the network request with the built payload. -/
inductive AnalysisAction where
  | validationAlert (msg : String)
  | request (payload : Payload)
deriving Repr, DecidableEq

/-- JS truthiness of the optional signal string (`!state.currentSignal`):
`null` and the empty string are falsy. -/
def jsTruthy : Option String → Bool
  | none => false
  | some s => !(s == "")

/-- The submit path of `runAnalysis` in src/frontend/scanner.js lines 49-66: a
missing signal alerts and returns before the payload is built; otherwise the
payload is built from the state and posted. -/
def runAnalysis (st : ScannerState) (nowIso : String) : AnalysisAction :=
  if !(jsTruthy st.currentSignal) then
    .validationAlert "Please select Fraud or Legit signal."
  else
    let sig := st.currentSignal.getD ""
    .request {
      transaction_type := st.currentTransactionType,
      model_used := st.currentModel,
      forced_signal := sig,
      fraud_label := if sig == "fraud" then "fraud" else "non-fraud",
      timestamp := nowIso }

/-- The commit button's rendered state (text, disabled flag, background). -/
structure CommitBtn where
  text : String
  disabled : Bool
  background : String
deriving Repr, DecidableEq

/-- Outcome of the `POST /commit` request: parsed success body or any failure
(non-ok status or rejected fetch). -/
inductive CommitOutcome where
  | success (block_number : Nat) (tx_hash : String)
  | failure (msg : String)

/-- Result of one `commitToLedger` run: scanner state afterwards, commit-button
state afterwards, the alert shown, and whether a request was issued at all. -/
structure CommitResult where
  state : ScannerState
  btn : CommitBtn
  alertMsg : Option String
  requested : Bool
deriving Repr, DecidableEq

/-- `commitToLedger` of src/frontend/scanner.js lines 167-210: without a stored
result it alerts and returns; on success the button announces the block and
stays disabled; on failure the button becomes an enabled `Retry Commit` and the
stored analysis result is not touched. -/
def commitToLedger (st : ScannerState) (btn : CommitBtn) (o : CommitOutcome) : CommitResult :=
  match st.lastResult with
  | none => ⟨st, btn, some "No analysis data to commit.", false⟩
  | some _ =>
    match o with
    | .success bn th =>
      ⟨st, ⟨"Proof On-Chain!", true, "#22c55e"⟩,
        some ("Block #" ++ toString bn ++ "\nTx: " ++ th), true⟩
    | .failure _ =>
      ⟨st, ⟨"Retry Commit", false, "#ef4444"⟩, some "Commit failed.", true⟩

/-- Concrete record: vehicle transaction scored exactly 50. -/
def score50Rec : Record := ⟨1, "vehicle", 50, none, none⟩

/-- Concrete record: vehicle transaction scored 80. -/
def vehicle80Rec : Record := ⟨2, "vehicle", 80, none, none⟩

/-- Concrete record: bank transaction scored 30. -/
def bank30Rec : Record := ⟨3, "bank", 30, some 0, none⟩

/-- Concrete record with an unrecognized transaction type. -/
def dogecoinRec : Record := ⟨4, "dogecoin", 99, none, none⟩

/-- Concrete record with the older of two timestamps. -/
def feedROld : Record := ⟨5, "bank", 30, some 0, none⟩

/-- Concrete record with the newer of two timestamps. -/
def feedRNew : Record := ⟨6, "bank", 40, some 1000000, none⟩

/-- Concrete prior part_000 page state with one bank record rendered. -/
def c4PriorStats : StatsState := ⟨[0, 1, 0, 0], [0, 0, 0, 0], 1, 0, Sum.inl [bank30Rec]⟩

/-- Concrete analysis response whose risk level is not HIGH. -/
def lowRiskResponse : AnalyzeResponse := ⟨"LOW", some "12", some "ok", some "0xabc", some "tx1"⟩

/-- Concrete scanner state with no signal selected. -/
def noSignalState : ScannerState := ⟨"vehicle", "lightgbm", none, none⟩

/-- Concrete scanner state holding a stored analysis result. -/
def analyzedState : ScannerState := ⟨"vehicle", "lightgbm", some "fraud", some lowRiskResponse⟩

/-- Concrete commit-button state while a commit request is outstanding. -/
def committingBtn : CommitBtn := ⟨"Committing...", true, "#4f46e5"⟩

theorem categorize_vehicle_safe (p : Record → Bool) (g : TypeGroups) (r : Record) :
    (categorize p g r).vehicle.safe
      = g.vehicle.safe + (if catSafeP p "vehicle" r then 1 else 0) := by
  unfold categorize catSafeP bump
  split_ifs <;> simp_all

theorem categorize_vehicle_fraud (p : Record → Bool) (g : TypeGroups) (r : Record) :
    (categorize p g r).vehicle.fraud
      = g.vehicle.fraud + (if catFraudP p "vehicle" r then 1 else 0) := by
  unfold categorize catFraudP bump
  split_ifs <;> simp_all

theorem categorize_bank_safe (p : Record → Bool) (g : TypeGroups) (r : Record) :
    (categorize p g r).bank.safe
      = g.bank.safe + (if catSafeP p "bank" r then 1 else 0) := by
  unfold categorize catSafeP bump
  split_ifs <;> simp_all

theorem categorize_bank_fraud (p : Record → Bool) (g : TypeGroups) (r : Record) :
    (categorize p g r).bank.fraud
      = g.bank.fraud + (if catFraudP p "bank" r then 1 else 0) := by
  unfold categorize catFraudP bump
  split_ifs <;> simp_all

theorem categorize_ecommerce_safe (p : Record → Bool) (g : TypeGroups) (r : Record) :
    (categorize p g r).ecommerce.safe
      = g.ecommerce.safe + (if catSafeP p "ecommerce" r then 1 else 0) := by
  unfold categorize catSafeP bump
  split_ifs <;> simp_all

theorem categorize_ecommerce_fraud (p : Record → Bool) (g : TypeGroups) (r : Record) :
    (categorize p g r).ecommerce.fraud
      = g.ecommerce.fraud + (if catFraudP p "ecommerce" r then 1 else 0) := by
  unfold categorize catFraudP bump
  split_ifs <;> simp_all

theorem categorize_ethereum_safe (p : Record → Bool) (g : TypeGroups) (r : Record) :
    (categorize p g r).ethereum.safe
      = g.ethereum.safe + (if catSafeP p "ethereum" r then 1 else 0) := by
  unfold categorize catSafeP bump
  split_ifs <;> simp_all

theorem categorize_ethereum_fraud (p : Record → Bool) (g : TypeGroups) (r : Record) :
    (categorize p g r).ethereum.fraud
      = g.ethereum.fraud + (if catFraudP p "ethereum" r then 1 else 0) := by
  unfold categorize catFraudP bump
  split_ifs <;> simp_all

/-- The forEach aggregation loop computes, in every category, exactly the count
of records matching that category's safe resp. fraud predicate. -/
theorem foldl_categorize_char (p : Record → Bool) (l : List Record) (g : TypeGroups) :
    l.foldl (categorize p) g = ⟨
      ⟨g.vehicle.safe + l.countP (catSafeP p "vehicle"),
       g.vehicle.fraud + l.countP (catFraudP p "vehicle")⟩,
      ⟨g.bank.safe + l.countP (catSafeP p "bank"),
       g.bank.fraud + l.countP (catFraudP p "bank")⟩,
      ⟨g.ecommerce.safe + l.countP (catSafeP p "ecommerce"),
       g.ecommerce.fraud + l.countP (catFraudP p "ecommerce")⟩,
      ⟨g.ethereum.safe + l.countP (catSafeP p "ethereum"),
       g.ethereum.fraud + l.countP (catFraudP p "ethereum")⟩⟩ := by
  induction l generalizing g with
  | nil => simp [List.countP_nil]
  | cons r t ih =>
    rw [List.foldl_cons, ih]
    simp only [List.countP_cons, TypeGroups.mk.injEq, TypeCounts.mk.injEq,
      categorize_vehicle_safe, categorize_vehicle_fraud, categorize_bank_safe,
      categorize_bank_fraud, categorize_ecommerce_safe, categorize_ecommerce_fraud,
      categorize_ethereum_safe, categorize_ethereum_fraud]
    refine ⟨⟨?_, ?_⟩, ⟨?_, ?_⟩, ⟨?_, ?_⟩, ⟨?_, ?_⟩⟩ <;> split_ifs <;> omega

/-- A record with an unrecognized transaction type falls through the
`if (typeGroups[type])` guard and changes nothing. -/
theorem categorize_unrecognized (p : Record → Bool) (g : TypeGroups) (r : Record)
    (h : recognizedType r = false) : categorize p g r = g := by
  unfold recognizedType at h
  simp only [Bool.or_eq_false_iff, beq_eq_false_iff_ne, ne_eq] at h
  obtain ⟨⟨⟨h1, h2⟩, h3⟩, h4⟩ := h
  unfold categorize
  simp [h1, h2, h3, h4]

/-- One loop step raises the total of all eight counters by one exactly when the
record's type is recognized. -/
theorem categorize_total (p : Record → Bool) (g : TypeGroups) (r : Record) :
    (categorize p g r).total = g.total + (if recognizedType r then 1 else 0) := by
  unfold categorize TypeGroups.total recognizedType bump
  split_ifs <;> simp_all <;> omega

/-- The aggregation loop adds one to the total of all eight counters per
recognized record. -/
theorem foldl_categorize_total (p : Record → Bool) (l : List Record) (g : TypeGroups) :
    (l.foldl (categorize p) g).total = g.total + l.countP recognizedType := by
  induction l generalizing g with
  | nil => simp [List.countP_nil]
  | cons r t ih =>
    rw [List.foldl_cons, ih, categorize_total, List.countP_cons]
    split_ifs <;> omega

/-- C1 (corrected): in the part_000 variant a recognized record is counted as
fraud in its category exactly when its fraud_score is strictly greater than 50
and as safe otherwise, while in the dashboard.js variant it is counted as fraud
exactly when its fraud_score is at least 50 (a score of exactly 50 is fraud
there) and as safe otherwise. -/
theorem c1_category_fraud_threshold (l : List Record) (t : String)
    (ht : t ∈ ["vehicle", "bank", "ecommerce", "ethereum"]) :
    ((statsCounts l).cat t).fraud
        = l.countP (fun r => r.transaction_type == t && decide (50 < r.fraud_score)) ∧
    ((statsCounts l).cat t).safe
        = l.countP (fun r => r.transaction_type == t && !decide (50 < r.fraud_score)) ∧
    ((dashCounts l).cat t).fraud
        = l.countP (fun r => r.transaction_type == t && decide (50 ≤ r.fraud_score)) ∧
    ((dashCounts l).cat t).safe
        = l.countP (fun r => r.transaction_type == t && !decide (50 ≤ r.fraud_score)) := by
  simp only [List.mem_cons, List.not_mem_nil, or_false] at ht
  rcases ht with rfl | rfl | rfl | rfl <;>
    · simp [statsCounts, dashCounts, foldl_categorize_char, TypeGroups.cat, initGroups]
      exact ⟨rfl, rfl, rfl, rfl⟩

/-- C1 witness: the characterization evaluated on one vehicle record scored 80. -/
theorem c1_category_fraud_threshold_witness :
    ((statsCounts [vehicle80Rec]).cat "vehicle").fraud
        = List.countP (fun r => r.transaction_type == "vehicle" && decide (50 < r.fraud_score))
            [vehicle80Rec] ∧
    ((statsCounts [vehicle80Rec]).cat "vehicle").safe
        = List.countP (fun r => r.transaction_type == "vehicle" && !decide (50 < r.fraud_score))
            [vehicle80Rec] ∧
    ((dashCounts [vehicle80Rec]).cat "vehicle").fraud
        = List.countP (fun r => r.transaction_type == "vehicle" && decide (50 ≤ r.fraud_score))
            [vehicle80Rec] ∧
    ((dashCounts [vehicle80Rec]).cat "vehicle").safe
        = List.countP (fun r => r.transaction_type == "vehicle" && !decide (50 ≤ r.fraud_score))
            [vehicle80Rec] :=
  c1_category_fraud_threshold [vehicle80Rec] "vehicle" (by decide)

/-- C1 counterexample: dashboard.js counts a vehicle record scored exactly 50 as
fraud although its score is not strictly greater than 50, so the claim's
canonical strict threshold is false on that variant. -/
theorem c1_score50_counterexample :
    (dashCounts [score50Rec]).vehicle.fraud = 1 ∧
    (dashCounts [score50Rec]).vehicle.safe = 0 ∧
    ¬ (50 < score50Rec.fraud_score) := by decide

/-- C6 (confirmed): appending a record with an unrecognized transaction type
leaves all eight category counters of both variants unchanged, and in both
variants the eight counters always total exactly the number of recognized
records, so every record contributes to exactly one category bucket or to none. -/
theorem c6_unrecognized_type_excluded (l : List Record) (r : Record)
    (h : recognizedType r = false) :
    dashCounts (l ++ [r]) = dashCounts l ∧
    statsCounts (l ++ [r]) = statsCounts l ∧
    (dashCounts l).total = l.countP recognizedType ∧
    (statsCounts l).total = l.countP recognizedType := by
  refine ⟨?_, ?_, ?_, ?_⟩
  · simp [dashCounts, List.foldl_append, categorize_unrecognized _ _ _ h]
  · simp [statsCounts, List.foldl_append, categorize_unrecognized _ _ _ h]
  · simp only [dashCounts, foldl_categorize_total]
    simp [initGroups, TypeGroups.total]
  · simp only [statsCounts, foldl_categorize_total]
    simp [initGroups, TypeGroups.total]

/-- C6 witness: a dogecoin-typed record appended after one vehicle record. -/
theorem c6_unrecognized_type_excluded_witness :
    dashCounts ([vehicle80Rec] ++ [dogecoinRec]) = dashCounts [vehicle80Rec] ∧
    statsCounts ([vehicle80Rec] ++ [dogecoinRec]) = statsCounts [vehicle80Rec] ∧
    (dashCounts [vehicle80Rec]).total = List.countP recognizedType [vehicle80Rec] ∧
    (statsCounts [vehicle80Rec]).total = List.countP recognizedType [vehicle80Rec] :=
  c6_unrecognized_type_excluded [vehicle80Rec] dogecoinRec (by decide)

/-- C10 (confirmed): both variants' category safe/fraud counts are invariant
under any permutation of the input record sequence. -/
theorem c10_counts_perm_invariant (l₁ l₂ : List Record) (h : l₁.Perm l₂) :
    dashCounts l₁ = dashCounts l₂ ∧ statsCounts l₁ = statsCounts l₂ := by
  constructor <;>
    simp [dashCounts, statsCounts, foldl_categorize_char, h.countP_eq]

/-- C10 witness: swapping two concrete records leaves both counts unchanged. -/
theorem c10_counts_perm_invariant_witness :
    dashCounts [vehicle80Rec, bank30Rec] = dashCounts [bank30Rec, vehicle80Rec] ∧
    statsCounts [vehicle80Rec, bank30Rec] = statsCounts [bank30Rec, vehicle80Rec] :=
  c10_counts_perm_invariant [vehicle80Rec, bank30Rec] [bank30Rec, vehicle80Rec] (by decide)

theorem incBucket_length (h : List Nat) (i : Nat) : (incBucket h i).length = h.length := by
  simp [incBucket]

theorem incBucket_sum : ∀ (h : List Nat) (i : Nat), i < h.length →
    (incBucket h i).sum = h.sum + 1
  | a :: t, 0, _ => by simp [incBucket]; omega
  | a :: t, j + 1, hi => by
    have ih := incBucket_sum t j (by simpa using hi)
    simp only [incBucket] at ih ⊢
    simp only [List.getD_cons_succ, List.set_cons_succ, List.sum_cons]
    omega

theorem bucketIndex_le_nine (s : Int) : bucketIndex s ≤ 9 := by
  simp [bucketIndex]

theorem foldl_incBucket_length (l : List Record) (h : List Nat) :
    (l.foldl (fun acc r => incBucket acc (bucketIndex r.fraud_score)) h).length = h.length := by
  induction l generalizing h with
  | nil => rfl
  | cons r t ih => rw [List.foldl_cons, ih, incBucket_length]

theorem foldl_incBucket_sum (l : List Record) (h : List Nat) (hlen : h.length = 10) :
    (l.foldl (fun acc r => incBucket acc (bucketIndex r.fraud_score)) h).sum
      = h.sum + l.length := by
  induction l generalizing h with
  | nil => simp
  | cons r t ih =>
    rw [List.foldl_cons, ih _ (by rw [incBucket_length, hlen]),
      incBucket_sum h _ (by rw [hlen]; exact Nat.lt_of_le_of_lt (bucketIndex_le_nine _) (by norm_num)),
      List.length_cons]
    omega

/-- C3 (confirmed): the histogram has ten buckets, each record's clamped score
contributes one count to exactly the bucket `min(floor(score/10), 9)` (the
append equation), the bucket counts sum to exactly the input length, every
bucket index is at most 9, score 100 maps to bucket 9 and score 0 to bucket 0. -/
theorem c3_histogram_buckets (l : List Record) (r : Record) (s : Int) :
    (scoreHistogram l).sum = l.length ∧
    (scoreHistogram l).length = 10 ∧
    scoreHistogram (l ++ [r]) = incBucket (scoreHistogram l) (bucketIndex r.fraud_score) ∧
    bucketIndex s = min ((min 100 (max 0 s)).toNat / 10) 9 ∧
    bucketIndex s ≤ 9 ∧
    bucketIndex 100 = 9 ∧
    bucketIndex 0 = 0 := by
  refine ⟨?_, ?_, ?_, rfl, bucketIndex_le_nine s, by decide, by decide⟩
  · simp [scoreHistogram, foldl_incBucket_sum]
  · simp [scoreHistogram, foldl_incBucket_length]
  · simp [scoreHistogram, List.foldl_append]

/-- C2 (corrected): the feed selector returns the first `min(10, n)` records of
the input in their original received order — the output never has more than 10
entries, is an order-preserving selection of the input, and position `i` of the
output is exactly position `i` of the input for `i < 10`; no sorting by
`created_at` is performed. -/
theorem c2_feed_first_ten (l : List Record) :
    (recentRecords l).length ≤ 10 ∧
    (recentRecords l).Sublist l ∧
    (∀ i : Nat, (recentRecords l)[i]? = if i < 10 then l[i]? else none) := by
  refine ⟨?_, List.take_sublist 10 l, ?_⟩
  · simp [recentRecords]
  · intro i
    by_cases hi : i < 10
    · rw [if_pos hi]
      exact List.getElem?_take_of_lt hi
    · rw [if_neg hi]
      apply List.getElem?_eq_none
      simp only [recentRecords, List.length_take]
      omega

/-- C2 counterexample: on an input whose first record is older than its second,
the feed selector returns the input unchanged, which is not sorted by
`created_at` descending. -/
theorem c2_unsorted_counterexample :
    recentRecords [feedROld, feedRNew] = [feedROld, feedRNew] ∧
    ¬ sortedByCreatedAtDesc (recentRecords [feedROld, feedRNew]) := by
  constructor
  · rfl
  · intro h
    have h2 := (List.pairwise_cons.mp h).1 feedRNew (by simp)
    simp [tsLE, feedROld, feedRNew] at h2

/-- C4 (corrected): on every failing fetch cycle — network error, non-success
HTTP status, or unexpected content type (part_000's content-type guard, and the
JSON-parse rejection that a wrong content type causes in dashboard.js) — a
visible error message is surfaced and the chart data is left unaltered in both
variants; the previously rendered feed is also left unaltered in the
dashboard.js variant, whose error goes to the feed heading, but the part_000
variant overwrites the feed container itself with the error banner; later
cycles are unaffected by the failure — a subsequent successful response renders
the same chart and feed from any prior state. -/
theorem c4_failure_preserves_chart :
    (∀ (s : DashState) (msg : String),
      dashFetchCycle s (.networkError msg)
        = { s with feedHeading := "Live Block Feed - Error: " ++ msg }) ∧
    (∀ (s : DashState) (status : Nat) (ct : Option String) (text : String)
        (body : Except String DashData),
      dashFetchCycle s (.response false status ct text body)
        = { s with feedHeading := "Live Block Feed - Error: HTTP error! status: "
              ++ toString status }) ∧
    (∀ (s : DashState) (status : Nat) (ct : Option String) (text msg : String),
      dashFetchCycle s (.response true status ct text (.error msg))
        = { s with feedHeading := "Live Block Feed - Error: " ++ msg }) ∧
    (∀ (s : StatsState) (msg : String),
      statsFetchCycle s (.networkError msg)
        = { s with feed := Sum.inr ("Connection Error: " ++ msg
              ++ ". Is Backend running?") }) ∧
    (∀ (s : StatsState) (ok : Bool) (status : Nat) (ct : Option String) (text : String)
        (body : Except String DashData), jsonContentType ct = false →
      statsFetchCycle s (.response ok status ct text body)
        = { s with feed := Sum.inr ("Connection Error: "
              ++ ("Server returned non-JSON response: " ++ text.take 50 ++ "...")
              ++ ". Is Backend running?") }) ∧
    (∀ (s : StatsState) (status : Nat) (ct : Option String) (text : String)
        (body : Except String DashData), jsonContentType ct = true →
      statsFetchCycle s (.response false status ct text body)
        = { s with feed := Sum.inr ("Connection Error: "
              ++ ("HTTP Error: " ++ toString status)
              ++ ". Is Backend running?") }) ∧
    (∀ (s : StatsState) (status : Nat) (ct : Option String) (text msg : String),
      jsonContentType ct = true →
      statsFetchCycle s (.response true status ct text (.error msg))
        = { s with feed := Sum.inr ("Connection Error: " ++ msg
              ++ ". Is Backend running?") }) ∧
    (∀ (s₁ s₂ : DashState) (status : Nat) (ct : Option String) (text : String) (d : DashData),
      (dashFetchCycle s₁ (.response true status ct text (.ok d))).labels
        = (dashFetchCycle s₂ (.response true status ct text (.ok d))).labels ∧
      (dashFetchCycle s₁ (.response true status ct text (.ok d))).safeData
        = (dashFetchCycle s₂ (.response true status ct text (.ok d))).safeData ∧
      (dashFetchCycle s₁ (.response true status ct text (.ok d))).fraudData
        = (dashFetchCycle s₂ (.response true status ct text (.ok d))).fraudData ∧
      (dashFetchCycle s₁ (.response true status ct text (.ok d))).feedItems
        = (dashFetchCycle s₂ (.response true status ct text (.ok d))).feedItems) ∧
    (∀ (s₁ s₂ : StatsState) (status : Nat) (ct : Option String) (text : String) (d : DashData),
      jsonContentType ct = true →
      statsFetchCycle s₁ (.response true status ct text (.ok d))
        = statsFetchCycle s₂ (.response true status ct text (.ok d))) := by
  refine ⟨fun s msg => rfl, fun s status ct text body => rfl,
    fun s status ct text msg => rfl, fun s msg => rfl,
    fun s ok status ct text body h => ?_,
    fun s status ct text body h => ?_,
    fun s status ct text msg h => ?_,
    fun s₁ s₂ status ct text d => ⟨rfl, rfl, rfl, rfl⟩,
    fun s₁ s₂ status ct text d h => ?_⟩
  · simp [statsFetchCycle, statsError, h]
  · simp [statsFetchCycle, statsError, h]
  · simp [statsFetchCycle, statsError, h]
  · simp [statsFetchCycle, statsUpdateDashboard, h]

/-- C4 witness: each hypothesis-bearing conjunct applied at a concrete prior
state — a non-JSON content type with an otherwise ok response, an HTTP 500 with
JSON content type, a JSON parse failure with JSON content type, and the
state-independent recovery of a subsequent successful cycle. -/
theorem c4_failure_preserves_chart_witness :
    statsFetchCycle c4PriorStats (.response true 200 (some "text/html") "oops" (.ok ⟨some []⟩))
      = { c4PriorStats with
          feed := Sum.inr ("Connection Error: "
            ++ ("Server returned non-JSON response: " ++ "oops".take 50 ++ "...")
            ++ ". Is Backend running?") } ∧
    statsFetchCycle c4PriorStats
        (.response false 500 (some "application/json") "" (.error "parse failed"))
      = { c4PriorStats with
          feed := Sum.inr ("Connection Error: "
            ++ ("HTTP Error: " ++ toString 500)
            ++ ". Is Backend running?") } ∧
    statsFetchCycle c4PriorStats
        (.response true 200 (some "application/json") "" (.error "Unexpected token"))
      = { c4PriorStats with
          feed := Sum.inr ("Connection Error: " ++ "Unexpected token"
            ++ ". Is Backend running?") } ∧
    statsFetchCycle c4PriorStats
        (.response true 200 (some "application/json") "" (.ok ⟨some [bank30Rec]⟩))
      = statsFetchCycle ⟨[], [], 0, 0, Sum.inl []⟩
          (.response true 200 (some "application/json") "" (.ok ⟨some [bank30Rec]⟩)) :=
  ⟨c4_failure_preserves_chart.2.2.2.2.1 c4PriorStats true 200 (some "text/html") "oops"
      (.ok ⟨some []⟩) (by decide),
   c4_failure_preserves_chart.2.2.2.2.2.1 c4PriorStats 500 (some "application/json") ""
      (.error "parse failed") (by decide),
   c4_failure_preserves_chart.2.2.2.2.2.2.1 c4PriorStats 200 (some "application/json") ""
      "Unexpected token" (by decide),
   c4_failure_preserves_chart.2.2.2.2.2.2.2.2 c4PriorStats ⟨[], [], 0, 0, Sum.inl []⟩ 200
      (some "application/json") "" ⟨some [bank30Rec]⟩ (by decide)⟩

/-- C4 counterexample: in the part_000 variant a failing cycle does not leave
the previously rendered feed unaltered — the feed container holding one bank
record is overwritten with the connection-error banner. -/
theorem c4_feed_overwritten_counterexample :
    (statsFetchCycle c4PriorStats (.networkError "Failed to fetch")).feed
      = Sum.inr "Connection Error: Failed to fetch. Is Backend running?" ∧
    (statsFetchCycle c4PriorStats (.networkError "Failed to fetch")).feed
      ≠ c4PriorStats.feed := by
  constructor
  · rfl
  · intro h
    simp [statsFetchCycle, statsError, c4PriorStats] at h

/-- C5 (corrected): the rendered decision view is classified as fraud exactly
when the backend's returned risk_level is HIGH or the client's forced signal is
fraud; the backend classification alone does not drive the view — a fraud
forced signal produces a fraud-styled view even when the backend's risk_level
is not HIGH. -/
theorem c5_risk_classification (sig : Option String) (data : AnalyzeResponse) :
    ((renderResults sig data).riskBadgeText = "FRAUD DETECTED"
        ↔ (data.risk_level = "HIGH" ∨ sig = some "fraud")) ∧
    ((renderResults sig data).riskBadgeText = "LEGITIMATE"
        ↔ ¬(data.risk_level = "HIGH" ∨ sig = some "fraud")) ∧
    (renderResults sig data).highRisk
        = (data.risk_level == "HIGH" || sig == some "fraud") := by
  unfold renderResults
  by_cases h : data.risk_level == "HIGH" || sig == some "fraud"
  · rw [if_pos h]
    simp only [Bool.or_eq_true, beq_iff_eq] at h
    simp [h]
  · rw [if_neg h]
    simp only [Bool.or_eq_true, beq_iff_eq] at h
    push_neg at h
    simp only [Bool.or_eq_true, beq_iff_eq]
    constructor
    · constructor
      · intro hc
        exact absurd hc (by decide)
      · intro hc
        rcases hc with hc | hc
        · exact absurd hc h.1
        · exact absurd hc h.2
    · constructor
      · simp [h.1, h.2]
      · simp [h.1, h.2]

/-- C5 counterexample: with the backend returning risk_level LOW and the client
signal forced to fraud, the view is fraud-styled although the backend did not
return HIGH, so the classification is not driven by risk_level alone. -/
theorem c5_forced_signal_counterexample :
    (renderResults (some "fraud") lowRiskResponse).riskBadgeText = "FRAUD DETECTED" ∧
    (renderResults (some "fraud") lowRiskResponse).highRisk = true ∧
    lowRiskResponse.risk_level ≠ "HIGH" := by decide

/-- C8 (confirmed): when the scanner's submit action runs with no forced signal
selected, the result is the validation alert — a user-visible message — and no
network request action is produced. -/
theorem c8_no_signal_blocks_submit (st : ScannerState) (nowIso : String)
    (h : st.currentSignal = none) :
    runAnalysis st nowIso = .validationAlert "Please select Fraud or Legit signal." ∧
    ∀ p : Payload, runAnalysis st nowIso ≠ .request p := by
  have hr : runAnalysis st nowIso = .validationAlert "Please select Fraud or Legit signal." := by
    unfold runAnalysis jsTruthy
    rw [h]
    rfl
  refine ⟨hr, fun p hc => ?_⟩
  rw [hr] at hc
  cases hc

/-- C8 witness: the submit action on the concrete no-signal scanner state. -/
theorem c8_no_signal_blocks_submit_witness :
    runAnalysis noSignalState "2026-10-11T00:00:00Z"
      = .validationAlert "Please select Fraud or Legit signal." ∧
    ∀ p : Payload, runAnalysis noSignalState "2026-10-11T00:00:00Z" ≠ .request p :=
  c8_no_signal_blocks_submit noSignalState "2026-10-11T00:00:00Z" rfl

/-- C9 (confirmed): when the ledger commit request fails, the stored analysis
result is left unchanged and the commit button becomes an enabled Retry Commit,
so the user can retry manually. -/
theorem c9_commit_failure_retry (st : ScannerState) (btn : CommitBtn) (msg : String)
    (r : AnalyzeResponse) (h : st.lastResult = some r) :
    (commitToLedger st btn (.failure msg)).state = st ∧
    (commitToLedger st btn (.failure msg)).state.lastResult = some r ∧
    (commitToLedger st btn (.failure msg)).btn.disabled = false ∧
    (commitToLedger st btn (.failure msg)).btn.text = "Retry Commit" := by
  unfold commitToLedger
  rw [h]
  exact ⟨rfl, h, rfl, rfl⟩

/-- C9 witness: a failing commit on the concrete analyzed scanner state. -/
theorem c9_commit_failure_retry_witness :
    (commitToLedger analyzedState committingBtn (.failure "Commit failed")).state
      = analyzedState ∧
    (commitToLedger analyzedState committingBtn (.failure "Commit failed")).state.lastResult
      = some lowRiskResponse ∧
    (commitToLedger analyzedState committingBtn (.failure "Commit failed")).btn.disabled
      = false ∧
    (commitToLedger analyzedState committingBtn (.failure "Commit failed")).btn.text
      = "Retry Commit" :=
  c9_commit_failure_retry analyzedState committingBtn "Commit failed" lowRiskResponse rfl

/-- C7 (corrected): the time formatter returns `Just now` when the age is under
one minute, `1 min ago` / `N mins ago` for ages of 1-59 whole minutes, `1 hour
ago` / `N hours ago` for 1-23 whole hours, and `1 day ago` / `N days ago` at 24
hours or more, choosing singular exactly when the whole-unit count equals 1; a
missing timestamp yields the fixed `Unknown` label. The labels are capitalized
`Just now` and `Unknown`, not the claim's lowercase `just now` / `unknown`. -/
theorem c7_time_buckets (now t : Int) :
    (now - t < 60000 → getTimeAgo now (some t) = "Just now") ∧
    (60000 ≤ now - t → now - t < 3600000 →
      getTimeAgo now (some t) =
        if now - t < 120000 then "1 min ago"
        else toString ((now - t).fdiv 60000) ++ " mins ago") ∧
    (3600000 ≤ now - t → now - t < 86400000 →
      getTimeAgo now (some t) =
        if now - t < 7200000 then "1 hour ago"
        else toString ((now - t).fdiv 3600000) ++ " hours ago") ∧
    (86400000 ≤ now - t →
      getTimeAgo now (some t) =
        if now - t < 172800000 then "1 day ago"
        else toString ((now - t).fdiv 86400000) ++ " days ago") ∧
    getTimeAgo now none = "Unknown" := by
  have e1 : (now - t).fdiv 60000 = (now - t) / 60000 := Int.fdiv_eq_ediv _ (by norm_num)
  have e2 : ((now - t) / 60000).fdiv 60 = (now - t) / 3600000 := by
    rw [Int.fdiv_eq_ediv _ (by norm_num)]
    omega
  have e3 : ((now - t) / 3600000).fdiv 24 = (now - t) / 86400000 := by
    rw [Int.fdiv_eq_ediv _ (by norm_num)]
    omega
  have e4 : (now - t).fdiv 3600000 = (now - t) / 3600000 := Int.fdiv_eq_ediv _ (by norm_num)
  have e5 : (now - t).fdiv 86400000 = (now - t) / 86400000 := Int.fdiv_eq_ediv _ (by norm_num)
  refine ⟨fun h => ?_, fun h1 h2 => ?_, fun h1 h2 => ?_, fun h1 => ?_, rfl⟩
  · simp only [getTimeAgo, e1, e2, e3]
    rw [if_pos (show (now - t) / 60000 < 1 by omega)]
  · simp only [getTimeAgo, e1, e2, e3]
    rw [if_neg (show ¬((now - t) / 60000 < 1) by omega)]
    by_cases hc : now - t < 120000
    · rw [if_pos (show (now - t) / 60000 = 1 by omega), if_pos hc]
    · rw [if_neg (show ¬((now - t) / 60000 = 1) by omega),
        if_pos (show (now - t) / 60000 < 60 by omega), if_neg hc]
  · simp only [getTimeAgo, e1, e2, e3, e4]
    rw [if_neg (show ¬((now - t) / 60000 < 1) by omega),
      if_neg (show ¬((now - t) / 60000 = 1) by omega),
      if_neg (show ¬((now - t) / 60000 < 60) by omega)]
    by_cases hc : now - t < 7200000
    · rw [if_pos (show (now - t) / 3600000 = 1 by omega), if_pos hc]
    · rw [if_neg (show ¬((now - t) / 3600000 = 1) by omega),
        if_pos (show (now - t) / 3600000 < 24 by omega), if_neg hc]
  · simp only [getTimeAgo, e1, e2, e3, e5]
    rw [if_neg (show ¬((now - t) / 60000 < 1) by omega),
      if_neg (show ¬((now - t) / 60000 = 1) by omega),
      if_neg (show ¬((now - t) / 60000 < 60) by omega),
      if_neg (show ¬((now - t) / 3600000 = 1) by omega),
      if_neg (show ¬((now - t) / 3600000 < 24) by omega)]
    by_cases hc : now - t < 172800000
    · rw [if_pos (show (now - t) / 86400000 = 1 by omega), if_pos hc]
    · rw [if_neg (show ¬((now - t) / 86400000 = 1) by omega), if_neg hc]

/-- C7 witness: the bucket characterization applied at a 90-second age. -/
theorem c7_time_buckets_witness : getTimeAgo 90000 (some 0) = "1 min ago" := by
  have h := (c7_time_buckets 90000 0).2.1 (by norm_num) (by norm_num)
  norm_num at h
  exact h

/-- C7 counterexample: at a zero-second age the formatter returns the
capitalized `Just now`, not the claim's `just now`, and a missing timestamp
yields `Unknown`, not `unknown`. -/
theorem c7_capitalization_counterexample :
    getTimeAgo 0 (some 0) = "Just now" ∧ getTimeAgo 0 (some 0) ≠ "just now" ∧
    getTimeAgo 0 none = "Unknown" ∧ getTimeAgo 0 none ≠ "unknown" := by decide
